import Mathlib

/-!
Shallow embedding of `src/server.js` (cdclient): a proxy that resolves two
stations, opens a booking session, searches journeys, fetches prices,
converts CZK to EUR, and assembles a flat list of connection records.

Remote HTTP calls are modelled as oracles: each wrapper function takes the
JSON payload the remote would answer with (absent fields are `Option`).
JavaScript numbers are modelled as `ℚ` / `ℤ` / `Nat` (exact arithmetic);
`Number(x.toFixed(2))` is modelled as exact rounding to 2 decimal places
(round half up), which agrees with `toFixed` on the non-negative values the
pipeline handles. A JS exception is an `Except.error` carrying the message.
-/

namespace CdClient

/-- Result of `searchStation`: `{ id: item.iListID, name: item.sName }`. -/
structure Station where
  id : Int
  name : String
  deriving DecidableEq, Repr

/-- One element of `json.d` in the station-search response; the `oItem`
field may be absent (`undefined`), hence `Option`. -/
structure StationEntry where
  oItem : Option Station
  deriving DecidableEq, Repr

/-- `searchStation` (server.js lines 28-43): takes `json.d` of the remote response (absent → `[]`), reads `(json.d || [])[0]?.oItem`, and throws
`Station not found: <mask>` when that is `undefined`. -/
def searchStation (d : Option (List StationEntry)) (mask : String) :
    Except String Station :=
  match (d.getD []).head? with
  | some entry =>
    match entry.oItem with
    | some item => .ok item
    | none => .error ("Station not found: " ++ mask)
  | none => .error ("Station not found: " ++ mask)

/-- The `json.d` object of the session-creation response; `sSessionID` may
be absent. -/
structure SessionResp where
  sSessionID : Option String
  deriving DecidableEq, Repr

/-- `createSession` (server.js lines 46-67): returns `json.d?.sSessionID`
with no check whatsoever — when `d` or the token field is absent it
returns successfully with `none` (JS `undefined`), it does not throw. -/
def createSession (d : Option SessionResp) : Except String (Option String) :=
  .ok (d.bind SessionResp.sSessionID)

/-- One leg (`aoTrains` element) of a remote connection. The line-label
tokens `sType`, `sNum1`, `sNum2`, `sNum3` may each be absent. -/
structure Leg where
  dtDateTime1 : String
  dtDateTime2 : String
  sStationName1 : String
  sStationName2 : String
  sType : Option String
  sNum1 : Option String
  sNum2 : Option String
  sNum3 : Option String
  deriving DecidableEq, Repr

/-- A remote connection: identifier `iID` and ordered legs `aoTrains`. -/
structure Conn where
  iID : Int
  aoTrains : List Leg
  deriving DecidableEq, Repr

/-- The `oConnInfo` envelope; `aoConnections` may be absent. -/
structure ConnInfo where
  aoConnections : Option (List Conn)
  deriving DecidableEq, Repr

/-- The `json.d` object of the journey-search response. -/
structure JourneyD where
  iHandle : Int
  oConnInfo : Option ConnInfo
  deriving DecidableEq, Repr

/-- `searchJourneys` result: `{ handle, connections }`. -/
structure SearchResult where
  handle : Int
  connections : List Conn
  deriving DecidableEq, Repr

/-- `searchJourneys` (server.js lines 70-97): throws
`Malformed journey response` when `json.d` is absent, else returns the
handle and `d.oConnInfo?.aoConnections || []`. -/
def searchJourneys (d : Option JourneyD) : Except String SearchResult :=
  match d with
  | none => .error "Malformed journey response"
  | some dd =>
    .ok { handle := dd.iHandle
          connections := (dd.oConnInfo.bind ConnInfo.aoConnections).getD [] }

/-- One element of the price-lookup response; `iPrice` (minor units of CZK)
may be absent. -/
structure PriceItem where
  iPrice : Option Int
  deriving DecidableEq, Repr

/-- A converted price pair, `{ czk, eur }`. -/
structure Price where
  czk : ℚ
  eur : ℚ
  deriving DecidableEq, Repr

/-- Exact model of `Number(x.toFixed(2))`: round to 2 decimal places,
ties rounded up (JS rounds ties away from zero; the two agree on the
non-negative amounts this pipeline produces). -/
def round2 (q : ℚ) : ℚ := (round (q * 100) : ℤ) / 100

/-- `getPrices` (server.js lines 100-129): maps the response list
(`json.d || []`); each item yields `czk = (item.iPrice || 0) / 100` and
`eur = czk / czkRate`, both then put through `Number(·.toFixed(2))`.
The map cannot throw: an absent `iPrice` is replaced by `0`. -/
def getPrices (d : Option (List PriceItem)) (czkRate : ℚ) : List Price :=
  (d.getD []).map fun item =>
    let czk : ℚ := ((item.iPrice.getD 0 : Int) : ℚ) / 100
    let eur : ℚ := czk / czkRate
    { czk := round2 czk, eur := round2 eur }

/-- `fetchCzkRate` (server.js lines 133-137): `json.rates?.CZK || 1`.
The argument is the `CZK` field when present (`none` when `rates` or the
`CZK` key is absent); a present `0` is JS-falsy and also yields `1`. -/
def fetchCzkRate (czk : Option ℚ) : ℚ :=
  match czk with
  | none => 1
  | some q => if q = 0 then 1 else q

/-- JS whitespace test for the characters `String.prototype.trim` and this
model care about. -/
def jsWs (c : Char) : Bool := c = ' ' || c = '\t' || c = '\n' || c = '\r'

/-- Model of `String.prototype.trim`: drop leading and trailing
whitespace. -/
def jsTrim (s : String) : String :=
  ⟨((s.data.dropWhile jsWs).reverse.dropWhile jsWs).reverse⟩

/-- Model of `Array.prototype.join(sep)`. -/
def jsJoin (sep : String) : List String → String
  | [] => ""
  | x :: xs => xs.foldl (fun a b => a ++ sep ++ b) x

/-- Model of `.filter(Boolean)` on an array of optional strings: drop
`undefined`/`null` and the empty string (the falsy values that occur). -/
def jsFilterBoolean (ts : List (Option String)) : List String :=
  ts.filterMap fun t =>
    match t with
    | none => none
    | some s => if s = "" then none else some s

/-- `lineName` construction (server.js lines 198-201):
`[sType, sNum1, sNum2, sNum3].filter(Boolean)`, then joined with a single space and trimmed. -/
def lineName (ts : List (Option String)) : String :=
  jsTrim (jsJoin " " (jsFilterBoolean ts))

/-- Decimal digit character for `n < 10`. -/
def digitChar (n : Nat) : Char := Char.ofNat (48 + n)

/-- Two-digit zero-padded decimal rendering (as `toISOString` pads). -/
def pad2 (n : Nat) : String := ⟨[digitChar (n / 10 % 10), digitChar (n % 10)]⟩

/-- Three-digit zero-padded decimal rendering. -/
def pad3 (n : Nat) : String :=
  ⟨[digitChar (n / 100 % 10), digitChar (n / 10 % 10), digitChar (n % 10)]⟩

/-- Four-digit zero-padded decimal rendering. -/
def pad4 (n : Nat) : String :=
  ⟨[digitChar (n / 1000 % 10), digitChar (n / 100 % 10),
    digitChar (n / 10 % 10), digitChar (n % 10)]⟩

/-- Civil date from days since the Unix epoch (proleptic Gregorian),
returning `(year, month, day)`. -/
def civilFromDays (days : Nat) : Nat × Nat × Nat :=
  let z := days + 719468
  let era := z / 146097
  let doe := z % 146097
  let yoe := (doe - doe / 1460 + doe / 36524 - doe / 146096) / 365
  let y := yoe + era * 400
  let doy := doe - (365 * yoe + yoe / 4 - yoe / 100)
  let mp := (5 * doy + 2) / 153
  let d := doy - (153 * mp + 2) / 5 + 1
  let m := if mp < 10 then mp + 3 else mp - 9
  (if m ≤ 2 then y + 1 else y, m, d)

/-- Model of `Date.prototype.toISOString` (UTC) for a non-negative epoch
value in milliseconds: `YYYY-MM-DDTHH:mm:ss.sssZ`. -/
def toISOString (ms : Nat) : String :=
  let dayMs := ms % 86400000
  let days := ms / 86400000
  let ymd := civilFromDays days
  pad4 ymd.1 ++ "-" ++ pad2 ymd.2.1 ++ "-" ++ pad2 ymd.2.2 ++ "T" ++
    pad2 (dayMs / 3600000) ++ ":" ++ pad2 (dayMs % 3600000 / 60000) ++ ":" ++
    pad2 (dayMs % 60000 / 1000) ++ "." ++ pad3 (dayMs % 1000) ++ "Z"

/-- Value of a decimal digit string, as `parseInt(·, 10)` reads it. -/
def natOfDigits (cs : List Char) : Nat :=
  cs.foldl (fun a c => 10 * a + (c.toNat - 48)) 0

/-- `parseDate` (server.js lines 140-143):
strip every non-digit character, `parseInt` base 10, `new Date`, `toISOString`.
Stripping non-digits of an all-non-digit string leaves `parseInt` with an
empty string, giving `NaN`,
and a value beyond the ECMAScript time range also gives an invalid date;
in both cases `toISOString` throws `Invalid time value`. -/
def parseDate (raw : String) : Except String String :=
  let ds := raw.data.filter Char.isDigit
  if ds.isEmpty then .error "Invalid time value"
  else
    let ms := natOfDigits ds
    if ms > 8640000000000000 then .error "Invalid time value"
    else .ok (toISOString ms)

/-- One flattened leg of the endpoint output. -/
structure LegRec where
  depTime : String
  arrTime : String
  depName : String
  destName : String
  lineName : String
  deriving DecidableEq, Repr

/-- One connection record of the endpoint output array. -/
structure ConnRec where
  id : Int
  priceCzk : ℚ
  priceEur : ℚ
  transfers : Int
  legs : List LegRec
  deriving DecidableEq, Repr

/-- The record literal built for connection `c` at an index whose price is
`p` (server.js lines 188-203): `transfers` is `c.aoTrains.length - 1`. -/
def mkRec (c : Conn) (p : Price) (legs : List LegRec) : ConnRec :=
  { id := c.iID
    priceCzk := p.czk
    priceEur := p.eur
    transfers := (c.aoTrains.length : Int) - 1
    legs := legs }

/-- `prices[i]` followed by `.czk` access: when the index is out of range
the element is `undefined` and the property access throws. -/
def getPrice (prices : List Price) (i : Nat) : Except String Price :=
  match prices.get? i with
  | some p => .ok p
  | none => .error "Cannot read properties of undefined"

/-- The per-leg mapping (server.js lines 193-202); a `parseDate` throw
aborts the whole request. -/
def assembleLeg (leg : Leg) : Except String LegRec :=
  match parseDate leg.dtDateTime1 with
  | .error e => .error e
  | .ok dep =>
    match parseDate leg.dtDateTime2 with
    | .error e => .error e
    | .ok arr =>
      .ok { depTime := dep
            arrTime := arr
            depName := leg.sStationName1
            destName := leg.sStationName2
            lineName := lineName [leg.sType, leg.sNum1, leg.sNum2, leg.sNum3] }

/-- `connections.map((c, i) => …)` starting at index `i`: each element
reads `prices[i]` first (record-literal evaluation order), then maps the
legs; any throw aborts with that error. -/
def assembleFrom (prices : List Price) : Nat → List Conn → Except String (List ConnRec)
  | _, [] => .ok []
  | i, c :: cs =>
    match getPrice prices i with
    | .error e => .error e
    | .ok p =>
      match c.aoTrains.mapM assembleLeg with
      | .error e => .error e
      | .ok legs =>
        match assembleFrom prices (i + 1) cs with
        | .error e => .error e
        | .ok rest => .ok (mkRec c p legs :: rest)

/-- Step 6 of the handler: assemble the output array. -/
def assemble (conns : List Conn) (prices : List Price) : Except String (List ConnRec) :=
  assembleFrom prices 0 conns

/-- Query parameters of `GET /connections` as express delivers them:
absent parameter → `none`, present (possibly empty) → `some`. -/
structure Query where
  fromMask : Option String
  toMask : Option String
  dep : Option String
  age : Option String
  cls : Option String
  deriving DecidableEq, Repr

/-- JS falsiness of a query-parameter value: `undefined` and the empty
string are falsy; every other string is truthy. -/
def jsFalsy (o : Option String) : Bool :=
  match o with
  | none => true
  | some s => s == ""

/-- Oracle for the remote services: the JSON payloads each of the five
remote calls would answer with for this request. -/
structure World where
  fromResp : Option (List StationEntry)
  toResp : Option (List StationEntry)
  sessionResp : Option SessionResp
  journeyResp : Option JourneyD
  priceResp : Option (List PriceItem)
  rateResp : Option ℚ
  deriving DecidableEq, Repr

/-- One outbound remote call, with the request data the claims care
about (`prices` records the `aiConnID` list sent). -/
inductive RemoteCall where
  | station (mask : String)
  | session
  | journeys
  | prices (connIDs : List Int)
  | rate
  deriving DecidableEq, Repr

/-- Body of the endpoint HTTP response. -/
inductive RespBody where
  | error (msg : String)
  | records (rs : List ConnRec)
  deriving DecidableEq, Repr

/-- The endpoint HTTP response. -/
structure HResp where
  status : Nat
  body : RespBody
  deriving DecidableEq, Repr

/-- The remote-call pipeline of the handler (server.js lines 154-205),
entered only after parameter validation: stations (both, fail-fast),
session, journeys, exchange rate, prices, assembly. Returns the outcome
and the ordered list of remote calls issued. -/
def pipeline (q : Query) (w : World) : Except String (List ConnRec) × List RemoteCall :=
  let fromMask := q.fromMask.getD ""
  let toMask := q.toMask.getD ""
  match searchStation w.fromResp fromMask with
  | .error e => (.error e, [.station fromMask, .station toMask])
  | .ok _fromSt =>
  match searchStation w.toResp toMask with
  | .error e => (.error e, [.station fromMask, .station toMask])
  | .ok _toSt =>
  match createSession w.sessionResp with
  | .error e => (.error e, [.station fromMask, .station toMask, .session])
  | .ok _sessionID =>
  match searchJourneys w.journeyResp with
  | .error e => (.error e, [.station fromMask, .station toMask, .session, .journeys])
  | .ok sr =>
  let czkRate := fetchCzkRate w.rateResp
  let connIDs := sr.connections.map Conn.iID
  let prices := getPrices w.priceResp czkRate
  let calls := [.station fromMask, .station toMask, .session, .journeys, .rate,
                .prices connIDs]
  match assemble sr.connections prices with
  | .error e => (.error e, calls)
  | .ok out => (.ok out, calls)

/-- The `GET /connections` handler (server.js lines 145-210): the missing-
parameter check answers 400 before any remote call; a successful pipeline
answers 200 with the record array; a thrown error answers 500 with the
error message. -/
def handler (q : Query) (w : World) : HResp × List RemoteCall :=
  if jsFalsy q.fromMask || jsFalsy q.toMask || jsFalsy q.dep then
    ({ status := 400, body := .error "Missing from, to, or dep" }, [])
  else
    match pipeline q w with
    | (.ok out, calls) => ({ status := 200, body := .records out }, calls)
    | (.error e, calls) => ({ status := 500, body := .error e }, calls)

/-! ### Helper lemmas -/

/-- A two-decimal quantity is a fixed point of `round2`; in particular an
integer number of cents divided by 100. -/
theorem round2_intCast_div (p : ℤ) : round2 ((p : ℚ) / 100) = (p : ℚ) / 100 := by
  have h : ((p : ℚ) / 100) * 100 = (p : ℚ) := by
    field_simp
  rw [round2, h, round_intCast]

/-- `filter(Boolean)` on optional strings is: drop the absent ones, then
drop the empty ones. -/
theorem jsFilterBoolean_eq (ts : List (Option String)) :
    jsFilterBoolean ts = (ts.filterMap id).filter (fun s => s ≠ "") := by
  induction ts with
  | nil => rfl
  | cons t ts ih =>
    cases t with
    | none => simpa [jsFilterBoolean, List.filterMap_cons] using ih
    | some s =>
      by_cases hs : s = "" <;>
        simp [jsFilterBoolean, List.filterMap_cons, List.filter_cons, hs] at ih ⊢ <;>
        exact ih

/-- Reading `prices[i]` succeeds exactly when the index is in range, and
then returns the list element. -/
theorem getPrice_ok {prices : List Price} {i : Nat} {p : Price}
    (h : getPrice prices i = .ok p) : prices.get? i = some p := by
  unfold getPrice at h
  split at h
  next p' hp' =>
    injection h with h
    exact h ▸ hp'
  next hp' => simp at h

/-- Structure of a successful assembly starting at index `i`: the output
has one record per connection, and the record at offset `j` is built from
connection `j` and price `i + j`. -/
theorem assembleFrom_spec (prices : List Price) :
    ∀ (cs : List Conn) (i : Nat) (out : List ConnRec),
      assembleFrom prices i cs = .ok out →
      out.length = cs.length ∧
      ∀ j (hj : j < out.length) (hc : j < cs.length),
        ∃ p legs, prices.get? (i + j) = some p ∧
          (cs.get ⟨j, hc⟩).aoTrains.mapM assembleLeg = .ok legs ∧
          out.get ⟨j, hj⟩ = mkRec (cs.get ⟨j, hc⟩) p legs := by
  intro cs
  induction cs with
  | nil =>
    intro i out h
    simp only [assembleFrom] at h
    injection h with h
    subst h
    refine ⟨rfl, ?_⟩
    intro j hj hc
    simp at hc
  | cons c cs ih =>
    intro i out h
    simp only [assembleFrom] at h
    split at h
    · simp at h
    next p hp =>
      split at h
      · simp at h
      next legs hl =>
        split at h
        · simp at h
        next rest hr =>
          injection h with h
          subst h
          obtain ⟨hlen, hspec⟩ := ih (i + 1) rest hr
          refine ⟨by simp [hlen], ?_⟩
          intro j hj hc
          cases j with
          | zero =>
            refine ⟨p, legs, ?_, ?_, rfl⟩
            · simpa using getPrice_ok hp
            · simpa using hl
          | succ j' =>
            have hj' : j' < rest.length := by
              simp only [List.length_cons] at hj
              omega
            have hc' : j' < cs.length := by
              simp only [List.length_cons] at hc
              omega
            obtain ⟨p', legs', h1, h2, h3⟩ := hspec j' hj' hc'
            refine ⟨p', legs', ?_, ?_, ?_⟩
            · have harith : i + 1 + j' = i + (j' + 1) := by omega
              rw [← harith]
              exact h1
            · simpa using h2
            · simpa using h3

/-- When the price list is too short to cover a nonempty tail of
connections, assembly from index `i` fails with some error. -/
theorem assembleFrom_short (prices : List Price) :
    ∀ (cs : List Conn) (i : Nat), cs ≠ [] → prices.length < i + cs.length →
      ∃ e, assembleFrom prices i cs = .error e := by
  intro cs
  induction cs with
  | nil => intro i h; exact absurd rfl h
  | cons c cs ih =>
    intro i _ hlen
    by_cases hi : i < prices.length
    · obtain ⟨p, hp⟩ : ∃ p, prices.get? i = some p :=
        ⟨prices.get ⟨i, hi⟩, List.get?_eq_get hi⟩
      have hgp : getPrice prices i = .ok p := by
        unfold getPrice
        rw [hp]
      cases hml : c.aoTrains.mapM assembleLeg with
      | error e => exact ⟨e, by simp only [assembleFrom, hgp, hml]⟩
      | ok legs =>
        have hne : cs ≠ [] := by
          intro hnil
          subst hnil
          simp only [List.length_cons, List.length_nil] at hlen
          omega
        obtain ⟨e, he⟩ := ih (i + 1) hne (by
          simp only [List.length_cons] at hlen ⊢
          omega)
        exact ⟨e, by simp only [assembleFrom, hgp, hml, he]⟩
    · have hp : prices.get? i = none := by
        rw [List.get?_eq_none]
        omega
      have hgp : getPrice prices i =
          .error "Cannot read properties of undefined" := by
        unfold getPrice
        rw [hp]
      exact ⟨"Cannot read properties of undefined",
        by simp only [assembleFrom, hgp]⟩

/-- With rate 1 every converted price has equal CZK and EUR amounts. -/
theorem getPrices_rate_one {d : Option (List PriceItem)} {p : Price}
    (h : p ∈ getPrices d 1) : p.eur = p.czk := by
  simp only [getPrices, List.mem_map] at h
  obtain ⟨item, _, rfl⟩ := h
  simp

/-! ### Claim theorems (first batch) -/

/-- C2 counterexample: a session-creation response whose `d` object is
present but carries no `sSessionID` (and likewise a response with no `d`
at all) makes `createSession` return successfully with no token — it does
not fail, contradicting the claim that it fails with a `SessionError`. -/
theorem c2_counterexample :
    createSession (some { sSessionID := none }) = .ok none ∧
    createSession none = .ok none := ⟨rfl, rfl⟩

/-- C2 (amended): when the session token field is absent from the
response, `createSession` returns successfully with an absent token
(`undefined`); no error of any kind is raised. -/
theorem c2_missing_token_ok (d : Option SessionResp)
    (h : d.bind SessionResp.sSessionID = none) :
    createSession d = .ok none := by
  unfold createSession
  rw [h]

/-- Witness for `c2_missing_token_ok` at a concrete tokenless response. -/
theorem c2_missing_token_ok_witness :
    (some { sSessionID := none } : Option SessionResp).bind SessionResp.sSessionID
        = none ∧
    createSession (some { sSessionID := none }) = .ok none :=
  ⟨rfl, c2_missing_token_ok (some { sSessionID := none }) rfl⟩

/-- C4: for an integer minor-unit price `p` and positive rate `r`, the
converted pair is `czk = round2(p/100)` and `eur = round2(round2(p/100)/r)`;
since `p/100` already has two decimal places the inner rounding is the
identity, so the two amounts are also each rounded independently from the
raw value, exactly as the code computes them. -/
theorem c4_price_rounding (p : ℤ) (r : ℚ) (hr : 0 < r) :
    getPrices (some [{ iPrice := some p }]) r =
      [{ czk := round2 ((p : ℚ) / 100),
         eur := round2 (round2 ((p : ℚ) / 100) / r) }] := by
  simp only [getPrices, Option.getD, List.map, round2_intCast_div]

/-- Witness for `c4_price_rounding` at `p = 12345`, `r = 25`. -/
theorem c4_price_rounding_witness :
    (0 : ℚ) < 25 ∧
    getPrices (some [{ iPrice := some 12345 }]) 25 =
      [{ czk := round2 (((12345 : ℤ) : ℚ) / 100),
         eur := round2 (round2 (((12345 : ℤ) : ℚ) / 100) / 25) }] :=
  ⟨by norm_num, c4_price_rounding 12345 25 (by norm_num)⟩

/-- C9: a price entry with an absent minor-unit amount (or an explicit 0,
both JS-falsy) does not make `getPrices` fail — it yields 0 for both the
CZK and the EUR amount of that entry. -/
theorem c9_missing_price_zero (r : ℚ) (hr : r ≠ 0) :
    getPrices (some [{ iPrice := none }, { iPrice := some 0 }]) r =
      [{ czk := 0, eur := 0 }, { czk := 0, eur := 0 }] := by
  simp [getPrices, round2]

/-- Witness for `c9_missing_price_zero` at `r = 25`. -/
theorem c9_missing_price_zero_witness :
    (25 : ℚ) ≠ 0 ∧
    getPrices (some [{ iPrice := none }, { iPrice := some 0 }]) 25 =
      [{ czk := 0, eur := 0 }, { czk := 0, eur := 0 }] :=
  ⟨by norm_num, c9_missing_price_zero 25 (by norm_num)⟩

/-- C7: `lineName` drops absent and empty tokens, joins the remainder
with single spaces and trims; on tokens `["EC", "123", "", null]` the
result is `"EC 123"`. -/
theorem c7_lineName (t1 t2 t3 t4 : Option String) :
    lineName [t1, t2, t3, t4] =
      jsTrim (jsJoin " " (([t1, t2, t3, t4].filterMap id).filter (fun s => s ≠ ""))) ∧
    lineName [some "EC", some "123", some "", none] = "EC 123" := by
  constructor
  · rw [lineName, jsFilterBoolean_eq]
  · rfl

/-- C8: parsing the embedded-epoch literal `/Date(1700000000000)/` yields
the ISO-8601 instant for epoch millisecond 1700000000000, namely
`2023-11-14T22:13:20.000Z`. -/
theorem c8_parseDate_epoch :
    parseDate "/Date(1700000000000)/" = .ok (toISOString 1700000000000) ∧
    toISOString 1700000000000 = "2023-11-14T22:13:20.000Z" := ⟨rfl, rfl⟩

/-! ### Sample data for witnesses -/

/-- A sample remote leg. -/
def sampleLeg : Leg :=
  { dtDateTime1 := "/Date(1700000000000)/"
    dtDateTime2 := "/Date(1700003600000)/"
    sStationName1 := "Praha hl.n."
    sStationName2 := "Brno hl.n."
    sType := some "EC"
    sNum1 := some "283"
    sNum2 := some ""
    sNum3 := none }

/-- The flattened record `sampleLeg` assembles to. -/
def sampleLegRec : LegRec :=
  { depTime := "2023-11-14T22:13:20.000Z"
    arrTime := "2023-11-14T23:13:20.000Z"
    depName := "Praha hl.n."
    destName := "Brno hl.n."
    lineName := "EC 283" }

/-- A sample remote connection with a single leg. -/
def sampleConn : Conn := { iID := 5, aoTrains := [sampleLeg] }

/-- A sample oracle world: both stations found, a session token, one
connection, one raw price of 100 minor units, and a rate response with no
CZK field. -/
def sampleWorld : World :=
  { fromResp := some [{ oItem := some { id := 1, name := "Praha hl.n." } }]
    toResp := some [{ oItem := some { id := 2, name := "Brno hl.n." } }]
    sessionResp := some { sSessionID := some "sess" }
    journeyResp := some { iHandle := 42
                          oConnInfo := some { aoConnections := some [sampleConn] } }
    priceResp := some [{ iPrice := some 100 }]
    rateResp := none }

/-- A sample valid query. -/
def sampleQuery : Query :=
  { fromMask := some "Praha", toMask := some "Brno", dep := some "1700000000000"
    age := some "25", cls := some "2" }

/-- The output array `sampleWorld` assembles to (rate falls back to 1). -/
def sampleOut : List ConnRec :=
  [{ id := 5
     priceCzk := round2 (((100 : Int) : ℚ) / 100)
     priceEur := round2 ((((100 : Int) : ℚ) / 100) / 1)
     transfers := 0
     legs := [sampleLegRec] }]

/-! ### Claim theorems (second batch) -/

/-- C1: for a request that reaches assembly (parameters present, stations
and journey search successful, assembly successful), the `aiConnID` list
sent to the price lookup is exactly the identifiers of the searched connections
in order, the endpoint answers 200 with the assembled array, and the
record at position `i` pairs `connections[i]` (its `iID`) with `prices[i]`
(its `czk`/`eur` amounts) — a positional zip by array index. -/
theorem c1_positional_zip (q : Query) (w : World) (stF stT : Station)
    (sr : SearchResult) (out : List ConnRec)
    (hq : (jsFalsy q.fromMask || jsFalsy q.toMask || jsFalsy q.dep) = false)
    (h1 : searchStation w.fromResp (q.fromMask.getD "") = .ok stF)
    (h2 : searchStation w.toResp (q.toMask.getD "") = .ok stT)
    (hj : searchJourneys w.journeyResp = .ok sr)
    (ha : assemble sr.connections
        (getPrices w.priceResp (fetchCzkRate w.rateResp)) = .ok out) :
    RemoteCall.prices (sr.connections.map Conn.iID) ∈ (handler q w).2 ∧
    (handler q w).1 = { status := 200, body := .records out } ∧
    out.length = sr.connections.length ∧
    ∀ i (hi : i < out.length) (hc : i < sr.connections.length),
      (out.get ⟨i, hi⟩).id = (sr.connections.get ⟨i, hc⟩).iID ∧
      ∃ p, (getPrices w.priceResp (fetchCzkRate w.rateResp)).get? i = some p ∧
        (out.get ⟨i, hi⟩).priceCzk = p.czk ∧ (out.get ⟨i, hi⟩).priceEur = p.eur := by
  have hpipe : pipeline q w =
      (.ok out,
       [.station (q.fromMask.getD ""), .station (q.toMask.getD ""), .session,
        .journeys, .rate, .prices (sr.connections.map Conn.iID)]) := by
    simp only [pipeline, h1, h2, hj, createSession, ha]
  obtain ⟨hlen, hspec⟩ := assembleFrom_spec _ _ 0 _ ha
  refine ⟨?_, ?_, hlen, ?_⟩
  · simp [handler, hq, hpipe]
  · simp [handler, hq, hpipe]
  · intro i hi hc
    obtain ⟨p, legs, h1p, _h2p, h3p⟩ := hspec i hi hc
    rw [Nat.zero_add] at h1p
    exact ⟨by rw [h3p]; rfl, p, h1p, by rw [h3p]; rfl, by rw [h3p]; rfl⟩

/-- Witness for `c1_positional_zip` on the sample world. -/
theorem c1_positional_zip_witness :
    ((jsFalsy sampleQuery.fromMask || jsFalsy sampleQuery.toMask ||
        jsFalsy sampleQuery.dep) = false ∧
     searchStation sampleWorld.fromResp (sampleQuery.fromMask.getD "") =
       .ok { id := 1, name := "Praha hl.n." } ∧
     searchJourneys sampleWorld.journeyResp =
       .ok { handle := 42, connections := [sampleConn] } ∧
     assemble [sampleConn]
       (getPrices sampleWorld.priceResp (fetchCzkRate sampleWorld.rateResp)) =
       .ok sampleOut) ∧
    RemoteCall.prices ([sampleConn].map Conn.iID) ∈
      (handler sampleQuery sampleWorld).2 ∧
    (handler sampleQuery sampleWorld).1 = { status := 200, body := .records sampleOut } ∧
    sampleOut.length = [sampleConn].length ∧
    ∀ i (hi : i < sampleOut.length) (hc : i < [sampleConn].length),
      (sampleOut.get ⟨i, hi⟩).id = ([sampleConn].get ⟨i, hc⟩).iID ∧
      ∃ p, (getPrices sampleWorld.priceResp (fetchCzkRate sampleWorld.rateResp)).get? i
            = some p ∧
        (sampleOut.get ⟨i, hi⟩).priceCzk = p.czk ∧
        (sampleOut.get ⟨i, hi⟩).priceEur = p.eur :=
  ⟨⟨rfl, rfl, rfl, rfl⟩,
   c1_positional_zip sampleQuery sampleWorld
     { id := 1, name := "Praha hl.n." } { id := 2, name := "Brno hl.n." }
     { handle := 42, connections := [sampleConn] } sampleOut
     rfl rfl rfl rfl rfl⟩

/-- C3 counterexample: a request whose three required parameters are all
present, with `from` bound to the empty string, still takes the 400
branch — so "when all three are present, the 400 branch is not taken" is
false as stated (JS falsiness treats a present-but-empty parameter like a
missing one). -/
theorem c3_counterexample :
    (some "" : Option String) ≠ none ∧
    (handler { fromMask := some "", toMask := some "Brno",
               dep := some "1700000000000", age := none, cls := none }
        sampleWorld).1.status = 400 :=
  ⟨by simp, rfl⟩

/-- C3 (amended): when any of `from`, `to`, `dep` is absent **or empty**
(JS-falsy), the endpoint answers 400 with body
`{ error: "Missing from, to, or dep" }` and issues no remote call; when
all three are present and non-empty, the 400 branch is not taken. -/
theorem c3_validation (q : Query) (w : World) :
    ((jsFalsy q.fromMask || jsFalsy q.toMask || jsFalsy q.dep) = true →
      handler q w =
        ({ status := 400, body := .error "Missing from, to, or dep" }, [])) ∧
    ((jsFalsy q.fromMask || jsFalsy q.toMask || jsFalsy q.dep) = false →
      (handler q w).1.status ≠ 400) := by
  constructor
  · intro h
    simp [handler, h]
  · intro h
    rcases hp : pipeline q w with ⟨r, calls⟩
    cases r <;> simp [handler, h, hp]

/-- Witness for `c3_validation`: a request missing `from` gets 400 and no
remote call; the sample valid request does not get 400. -/
theorem c3_validation_witness :
    ((jsFalsy (none : Option String) || jsFalsy (some "Brno") || jsFalsy (some "1")) =
        true ∧
      handler { fromMask := none, toMask := some "Brno", dep := some "1",
                age := none, cls := none } sampleWorld =
        ({ status := 400, body := .error "Missing from, to, or dep" }, [])) ∧
    ((jsFalsy sampleQuery.fromMask || jsFalsy sampleQuery.toMask ||
        jsFalsy sampleQuery.dep) = false ∧
      (handler sampleQuery sampleWorld).1.status ≠ 400) :=
  ⟨⟨rfl, (c3_validation { fromMask := none, toMask := some "Brno", dep := some "1",
                          age := none, cls := none } sampleWorld).1 rfl⟩,
   ⟨rfl, (c3_validation sampleQuery sampleWorld).2 rfl⟩⟩

/-- C5: when the exchange-rate response has no CZK field the rate used is
1, and every assembled record then has `priceEur` equal to `priceCzk`. -/
theorem c5_rate_fallback (conns : List Conn) (d : Option (List PriceItem))
    (out : List ConnRec)
    (ha : assemble conns (getPrices d (fetchCzkRate none)) = .ok out) :
    fetchCzkRate none = 1 ∧ ∀ rec ∈ out, rec.priceEur = rec.priceCzk := by
  refine ⟨rfl, ?_⟩
  intro rec hrec
  obtain ⟨⟨i, hi⟩, rfl⟩ := List.mem_iff_get.mp hrec
  obtain ⟨hlen, hspec⟩ := assembleFrom_spec _ _ 0 _ ha
  obtain ⟨p, legs, h1, _h2, h3⟩ := hspec i hi (hlen ▸ hi)
  rw [Nat.zero_add] at h1
  have hp : p ∈ getPrices d (fetchCzkRate none) := List.get?_mem h1
  have heq : p.eur = p.czk := getPrices_rate_one hp
  rw [h3]
  simpa [mkRec] using heq

/-- Witness for `c5_rate_fallback` on the sample world (no CZK field). -/
theorem c5_rate_fallback_witness :
    assemble [sampleConn]
      (getPrices (some [{ iPrice := some 100 }]) (fetchCzkRate none)) = .ok sampleOut ∧
    (fetchCzkRate none = 1 ∧ ∀ rec ∈ sampleOut, rec.priceEur = rec.priceCzk) :=
  ⟨rfl, c5_rate_fallback [sampleConn] (some [{ iPrice := some 100 }]) sampleOut rfl⟩

/-- C6: the assembled record of a connection with `k ≥ 1` legs has
`transfers = k - 1`; in particular one leg gives `transfers = 0`. -/
theorem c6_transfers (conns : List Conn) (prices : List Price) (out : List ConnRec)
    (ha : assemble conns prices = .ok out)
    (i : Nat) (hi : i < out.length) (hc : i < conns.length) (k : Nat)
    (hk : (conns.get ⟨i, hc⟩).aoTrains.length = k) (hk1 : 1 ≤ k) :
    (out.get ⟨i, hi⟩).transfers = (k : Int) - 1 ∧
    (k = 1 → (out.get ⟨i, hi⟩).transfers = 0) := by
  obtain ⟨hlen, hspec⟩ := assembleFrom_spec _ _ 0 _ ha
  obtain ⟨p, legs, _h1, _h2, h3⟩ := hspec i hi hc
  rw [h3]
  have hk' : (mkRec (conns.get ⟨i, hc⟩) p legs).transfers = (k : Int) - 1 := by
    show ((conns.get ⟨i, hc⟩).aoTrains.length : Int) - 1 = (k : Int) - 1
    rw [hk]
  refine ⟨hk', ?_⟩
  intro h
  subst h
  rw [hk']
  norm_num

/-- Witness for `c6_transfers`: one connection with a single leg. -/
theorem c6_transfers_witness :
    assemble [sampleConn] [{ czk := 1, eur := 1 }] =
      .ok [{ id := 5, priceCzk := 1, priceEur := 1, transfers := 0,
             legs := [sampleLegRec] }] ∧
    (sampleConn.aoTrains.length = 1 ∧ 1 ≤ 1) ∧
    (([{ id := 5, priceCzk := 1, priceEur := 1, transfers := 0,
         legs := [sampleLegRec] }] : List ConnRec).get ⟨0, Nat.zero_lt_one⟩).transfers
        = ((1 : Nat) : Int) - 1 ∧
    ((1 : Nat) = 1 →
      (([{ id := 5, priceCzk := 1, priceEur := 1, transfers := 0,
           legs := [sampleLegRec] }] : List ConnRec).get ⟨0, Nat.zero_lt_one⟩).transfers
          = 0) :=
  ⟨rfl, ⟨rfl, le_refl 1⟩,
   c6_transfers [sampleConn] [{ czk := 1, eur := 1 }]
     [{ id := 5, priceCzk := 1, priceEur := 1, transfers := 0,
        legs := [sampleLegRec] }]
     rfl 0 Nat.zero_lt_one Nat.zero_lt_one 1 rfl (le_refl 1)⟩

/-- C10: when the price list is shorter than the connection list, the
request that reached assembly fails (the missing `prices[i]` access
throws) and the endpoint answers 500 with an error body — never a partial
array of records. -/
theorem c10_short_prices (q : Query) (w : World) (stF stT : Station)
    (sr : SearchResult)
    (hq : (jsFalsy q.fromMask || jsFalsy q.toMask || jsFalsy q.dep) = false)
    (h1 : searchStation w.fromResp (q.fromMask.getD "") = .ok stF)
    (h2 : searchStation w.toResp (q.toMask.getD "") = .ok stT)
    (hj : searchJourneys w.journeyResp = .ok sr)
    (hlen : (getPrices w.priceResp (fetchCzkRate w.rateResp)).length <
      sr.connections.length) :
    ∃ e, (handler q w).1 = { status := 500, body := .error e } ∧
      ∀ rs, (handler q w).1.body ≠ .records rs := by
  have hne : sr.connections ≠ [] := by
    intro h
    rw [h] at hlen
    simp at hlen
  obtain ⟨e, he⟩ := assembleFrom_short _ sr.connections 0 hne (by simpa using hlen)
  have he' : assemble sr.connections
      (getPrices w.priceResp (fetchCzkRate w.rateResp)) = .error e := he
  have hpipe : pipeline q w =
      (.error e,
       [.station (q.fromMask.getD ""), .station (q.toMask.getD ""), .session,
        .journeys, .rate, .prices (sr.connections.map Conn.iID)]) := by
    simp only [pipeline, h1, h2, hj, createSession, he']
  refine ⟨e, ?_, ?_⟩
  · simp [handler, hq, hpipe]
  · simp [handler, hq, hpipe]

/-- Witness for `c10_short_prices`: sample world with an empty price
response but one connection. -/
theorem c10_short_prices_witness :
    ((jsFalsy sampleQuery.fromMask || jsFalsy sampleQuery.toMask ||
        jsFalsy sampleQuery.dep) = false ∧
     (getPrices (none : Option (List PriceItem))
        (fetchCzkRate sampleWorld.rateResp)).length < [sampleConn].length) ∧
    ∃ e, (handler sampleQuery { sampleWorld with priceResp := none }).1 =
        { status := 500, body := .error e } ∧
      ∀ rs, (handler sampleQuery { sampleWorld with priceResp := none }).1.body ≠
        .records rs :=
  ⟨⟨rfl, Nat.zero_lt_one⟩,
   c10_short_prices sampleQuery { sampleWorld with priceResp := none }
     { id := 1, name := "Praha hl.n." } { id := 2, name := "Brno hl.n." }
     { handle := 42, connections := [sampleConn] }
     rfl rfl rfl rfl Nat.zero_lt_one⟩

end CdClient
